import Mathlib

/-!
# Verification of the quick-sale ticket engine of `inventory-joy`

This development embeds the client-side sale-ticket (cart) state machine of
the point-of-sale dashboard: the `QuickSalePage` component (its state
variables and the handlers `handleSelectProduct`, `handleAddToTicket`,
`handleUpdateQuantity`, `handleRemoveItem`, `handleClearTicket`,
`handleConfirmSale` together with the `subtotal` / `discountAmount` /
`total` memos and the `createSaleMutation` success and error callbacks),
and the `handleResponse` error-message extraction of the shared API client.

Numbers are embedded as follows: quantities and stock figures are `Int`
(they come from `parseInt`), monetary amounts and the discount percentage
are `Rat` (exact arithmetic standing in for JS numbers; every identity
proved here is an identity of the arithmetic expressions the code builds).
-/

namespace InventoryJoy

/-- A catalog product as delivered by `GET /products` (the fields the
ticket engine reads: `id`, `sku`, `name`, `price`, `stock`, `minStock`). -/
structure Product where
  id : String
  sku : String
  name : String
  price : Rat
  stock : Int
  minStock : Int
deriving DecidableEq

/-- The `PaymentMethod` of `src/types`: `"CASH" | "CARD" | "TRANSFER"`. -/
inductive PaymentMethod where
  | CASH
  | CARD
  | TRANSFER
deriving DecidableEq

/-- The `TicketItem` interface of `QuickSalePage`:
`{productId, product, quantity, unitPrice, subtotal}`. -/
structure TicketItem where
  productId : String
  product : Product
  quantity : Int
  unitPrice : Rat
  subtotal : Rat
deriving DecidableEq

/-- The `useState` variables of `QuickSalePage` that the ticket engine
mutates (`searchOpen` is pure popover UI and is not modelled). -/
structure SaleState where
  searchQuery : String
  selectedProduct : Option Product
  quantity : Int
  ticketItems : List TicketItem
  discountPercent : Rat
  paymentMethod : PaymentMethod
deriving DecidableEq

/-- The initial values of the `useState` hooks:
`searchQuery=""`, `selectedProduct=null`, `quantity=1`, `ticketItems=[]`,
`discountPercent=0`, `paymentMethod="CASH"`. -/
def initialState : SaleState :=
  { searchQuery := ""
    selectedProduct := none
    quantity := 1
    ticketItems := []
    discountPercent := 0
    paymentMethod := PaymentMethod.CASH }

/-- The `subtotal` memo: `ticketItems.reduce((sum, item) => sum + item.subtotal, 0)`. -/
def subtotal (s : SaleState) : Rat :=
  s.ticketItems.foldl (fun sum item => sum + item.subtotal) 0

/-- The `discountAmount` memo: `(subtotal * discountPercent) / 100`. -/
def discountAmount (s : SaleState) : Rat :=
  subtotal s * s.discountPercent / 100

/-- The `total` memo: `subtotal - discountAmount`. -/
def total (s : SaleState) : Rat :=
  subtotal s - discountAmount s

/-- The `handleSelectProduct`: stages a candidate product, resets the staged
quantity to 1 and clears the search query. -/
def handleSelectProduct (s : SaleState) (product : Product) : SaleState :=
  { s with selectedProduct := some product, quantity := 1, searchQuery := "" }

/-- The quantity `Input`'s `onChange`:
`setQuantity(Math.max(1, parseInt(e.target.value) || 1))` (a raw value of
`0` — the `|| 1` case — and any value below 1 are clamped to 1). -/
def setQuantityInput (s : SaleState) (raw : Int) : SaleState :=
  { s with quantity := max 1 raw }

/-- The discount `Input`'s `onChange`:
`setDiscountPercent(Math.min(100, Math.max(0, parseFloat(e.target.value) || 0)))`. -/
def setDiscountInput (s : SaleState) (raw : Rat) : SaleState :=
  { s with discountPercent := min 100 (max 0 raw) }

/-- The `setPaymentMethod` via the payment-method `Select`. -/
def setPaymentMethodInput (s : SaleState) (m : PaymentMethod) : SaleState :=
  { s with paymentMethod := m }

/-- Outcome of `handleAddToTicket`, reifying its early returns and toasts:
the guard return when nothing is selected, the "Cantidad inválida" error,
the "Stock insuficiente" error (carrying the available stock and the
quantity already staged, the two figures the error message states), or
success carrying whether the non-blocking "Stock bajo" advisory fired. -/
inductive AddOutcome where
  | noSelection
  | invalidQuantity
  | insufficientStock (available : Int) (alreadyInTicket : Int)
  | added (lowStockWarning : Bool)
deriving DecidableEq

/-- The merge branch of `handleAddToTicket`:
`items.map(item => item.productId === selectedProduct.id ?
\x7b...item, quantity: totalQuantity, subtotal: item.unitPrice * totalQuantity\x7d : item)`. -/
def mergeLine (items : List TicketItem) (pid : String) (totalQuantity : Int) :
    List TicketItem :=
  items.map (fun item =>
    if item.productId == pid then
      { item with quantity := totalQuantity
                  subtotal := item.unitPrice * (totalQuantity : Rat) }
    else item)

/-- The `handleAddToTicket` of `QuickSalePage`. Returns the next state together
with the reified outcome. On the two error paths the state is returned as
is (the source returns before any `set*` call); on success the ticket is
updated (merge or append), the selection is cleared and the staged
quantity reset to 1, and the advisory flag records
`remainingStock <= minStock && remainingStock > 0`. -/
def handleAddToTicket (s : SaleState) : SaleState × AddOutcome :=
  match s.selectedProduct with
  | none => (s, AddOutcome.noSelection)
  | some selectedProduct =>
    if s.quantity ≤ 0 then
      (s, AddOutcome.invalidQuantity)
    else
      let existingItem :=
        s.ticketItems.find? (fun item => item.productId == selectedProduct.id)
      let currentQuantityInTicket := (existingItem.map TicketItem.quantity).getD 0
      let totalQuantity := currentQuantityInTicket + s.quantity
      if selectedProduct.stock < totalQuantity then
        (s, AddOutcome.insufficientStock selectedProduct.stock currentQuantityInTicket)
      else
        let newItems :=
          match existingItem with
          | some _ => mergeLine s.ticketItems selectedProduct.id totalQuantity
          | none =>
            s.ticketItems ++
              [{ productId := selectedProduct.id
                 product := selectedProduct
                 quantity := s.quantity
                 unitPrice := selectedProduct.price
                 subtotal := selectedProduct.price * (s.quantity : Rat) }]
        let remainingStock := selectedProduct.stock - totalQuantity
        ({ s with ticketItems := newItems, selectedProduct := none, quantity := 1 },
         AddOutcome.added
           (decide (remainingStock ≤ selectedProduct.minStock ∧ 0 < remainingStock)))

/-- The `handleRemoveItem`: `items.filter(i => i.productId !== productId)`. -/
def handleRemoveItem (s : SaleState) (productId : String) : SaleState :=
  { s with ticketItems := s.ticketItems.filter (fun i => i.productId != productId) }

/-- Outcome of `handleUpdateQuantity`, reifying its early returns. -/
inductive UpdateOutcome where
  | notFound
  | removed
  | insufficientStock (available : Int)
  | updated
deriving DecidableEq

/-- The in-place update of `handleUpdateQuantity`:
`items.map(i => i.productId === productId ?
\x7b...i, quantity: newQuantity, subtotal: i.unitPrice * newQuantity\x7d : i)`. -/
def updateLine (items : List TicketItem) (pid : String) (newQuantity : Int) :
    List TicketItem :=
  items.map (fun i =>
    if i.productId == pid then
      { i with quantity := newQuantity
               subtotal := i.unitPrice * (newQuantity : Rat) }
    else i)

/-- The `handleUpdateQuantity` of `QuickSalePage`: missing line is a silent
return; `newQuantity <= 0` delegates to `handleRemoveItem`;
`newQuantity > item.product.stock` errors leaving the state as is;
otherwise the line is rewritten in place. -/
def handleUpdateQuantity (s : SaleState) (productId : String) (newQuantity : Int) :
    SaleState × UpdateOutcome :=
  match s.ticketItems.find? (fun i => i.productId == productId) with
  | none => (s, UpdateOutcome.notFound)
  | some item =>
    if newQuantity ≤ 0 then
      (handleRemoveItem s productId, UpdateOutcome.removed)
    else if item.product.stock < newQuantity then
      (s, UpdateOutcome.insufficientStock item.product.stock)
    else
      ({ s with ticketItems := updateLine s.ticketItems productId newQuantity },
       UpdateOutcome.updated)

/-- The `handleClearTicket`: resets every piece of ticket state to its initial
value. -/
def handleClearTicket (s : SaleState) : SaleState :=
  { s with ticketItems := []
           selectedProduct := none
           quantity := 1
           discountPercent := 0
           paymentMethod := PaymentMethod.CASH
           searchQuery := "" }

/-- One element of `CreateSaleDto.items`: `\x7bproductId, quantity\x7d`
(no price fields exist on this type — unit prices are not sent). -/
structure CreateSaleItemDto where
  productId : String
  quantity : Int
deriving DecidableEq

/-- The `CreateSaleDto` built by `handleConfirmSale`:
`discountPercent: discountPercent > 0 ? discountPercent : undefined`
becomes an `Option`, and `customerId: null` likewise. -/
structure CreateSaleDto where
  items : List CreateSaleItemDto
  paymentMethod : PaymentMethod
  discountPercent : Option Rat
  customerId : Option String
deriving DecidableEq

/-- What `handleConfirmSale` decides to do: the `ticketItems.length === 0`
early return (the "Ticket vacío" toast — `createSaleMutation.mutate`, the
only network-call site, is never reached), or a submission carrying the
built payload. -/
inductive ConfirmAction where
  | emptyTicket
  | submit (payload : CreateSaleDto)
deriving DecidableEq

/-- The `handleConfirmSale` of `QuickSalePage`: guard on an empty ticket, else
build the `CreateSaleDto` and hand it to the mutation. -/
def handleConfirmSale (s : SaleState) : ConfirmAction :=
  if s.ticketItems.length = 0 then
    ConfirmAction.emptyTicket
  else
    ConfirmAction.submit
      { items := s.ticketItems.map (fun item =>
          { productId := item.productId, quantity := item.quantity })
        paymentMethod := s.paymentMethod
        discountPercent := if 0 < s.discountPercent then some s.discountPercent else none
        customerId := none }

/-- Result of one confirm attempt: the empty-ticket error (no request
made), or the backend's verdict on the submitted payload. -/
inductive ConfirmResult where
  | emptyTicketError
  | success (sent : CreateSaleDto)
  | failure (sent : CreateSaleDto)
deriving DecidableEq

/-- One full confirm attempt: `handleConfirmSale` plus the
`createSaleMutation` callbacks. `onSuccess` runs `handleClearTicket`;
`onError` only raises a toast, leaving the state untouched. `backendOk`
abstracts the external `POST /sales` verdict. -/
def confirmSaleStep (s : SaleState) (backendOk : Bool) : SaleState × ConfirmResult :=
  match handleConfirmSale s with
  | ConfirmAction.emptyTicket => (s, ConfirmResult.emptyTicketError)
  | ConfirmAction.submit payload =>
    if backendOk then (handleClearTicket s, ConfirmResult.success payload)
    else (s, ConfirmResult.failure payload)

/-- The discrete user actions that mutate ticket state in `QuickSalePage`. -/
inductive Action where
  | selectProduct (p : Product)
  | setQuantity (raw : Int)
  | addToTicket
  | updateQuantity (productId : String) (newQuantity : Int)
  | removeItem (productId : String)
  | clearTicket
  | setDiscount (raw : Rat)
  | setPayment (m : PaymentMethod)
  | confirmSale (backendOk : Bool)

/-- The state transition each action performs. -/
def step (s : SaleState) : Action → SaleState
  | Action.selectProduct p => handleSelectProduct s p
  | Action.setQuantity raw => setQuantityInput s raw
  | Action.addToTicket => (handleAddToTicket s).1
  | Action.updateQuantity pid n => (handleUpdateQuantity s pid n).1
  | Action.removeItem pid => handleRemoveItem s pid
  | Action.clearTicket => handleClearTicket s
  | Action.setDiscount raw => setDiscountInput s raw
  | Action.setPayment m => setPaymentMethodInput s m
  | Action.confirmSale ok => (confirmSaleStep s ok).1

/-- The ticket state reached from a fresh view mount by a sequence of
user actions. -/
def run (acts : List Action) : SaleState :=
  acts.foldl step initialState

/-- The `message` field of a backend error body, as `handleResponse` of the
API client distinguishes it: `Array.isArray(error.message)` or not. -/
inductive ErrorMessageField where
  | ofString (s : String)
  | ofArray (xs : List String)
deriving DecidableEq

/-- The error text `handleResponse` surfaces (as `ApiError.message`):
`Array.isArray(error.message) ? error.message.join(", ")
: error.message || "Error desconocido"` — a string `message` is surfaced
verbatim unless it is falsy (the empty string), an array is always joined
with `", "`. -/
def surfacedMessage : ErrorMessageField → String
  | ErrorMessageField.ofString s => if s = "" then "Error desconocido" else s
  | ErrorMessageField.ofArray xs => String.intercalate ", " xs

/-- The fields of a ticket line that are fixed at line creation: the
product id, the product snapshot, and the frozen unit price. -/
def frozenFields (i : TicketItem) : String × Product × Rat :=
  (i.productId, i.product, i.unitPrice)

/-- The ticket-state invariant maintained by every user action: every
line's `subtotal == unitPrice * quantity`, product ids are pairwise
distinct across lines, and the discount percentage lies in `[0, 100]`. -/
def TicketInvariant (s : SaleState) : Prop :=
  (∀ i ∈ s.ticketItems, i.subtotal = i.unitPrice * (i.quantity : Rat)) ∧
  (s.ticketItems.map TicketItem.productId).Nodup ∧
  0 ≤ s.discountPercent ∧ s.discountPercent ≤ 100

/-- An example catalog product: id "A", price 10, stock 5, minStock 1. -/
def prodA : Product :=
  { id := "A", sku := "SKU-A", name := "Alpha", price := 10, stock := 5, minStock := 1 }

/-- The `prodA` as re-fetched with a different catalog price (the price
changed after an existing line froze its `unitPrice`). -/
def prodA99 : Product :=
  { id := "A", sku := "SKU-A", name := "Alpha", price := 99, stock := 5, minStock := 1 }

/-- An example catalog product matching the spec scenario: stock 10,
minStock 3. -/
def prodB : Product :=
  { id := "B", sku := "SKU-B", name := "Beta", price := 5, stock := 10, minStock := 3 }

/-- A ticket line for `prodA` at quantity 4. -/
def lineA4 : TicketItem :=
  { productId := "A", product := prodA, quantity := 4, unitPrice := 10, subtotal := 40 }

/-- A ticket line for `prodA` at quantity 1. -/
def lineA1 : TicketItem :=
  { productId := "A", product := prodA, quantity := 1, unitPrice := 10, subtotal := 10 }

/-- Ticket state holding 4 units of `prodA` with 2 more staged. -/
def stateA4 : SaleState :=
  { searchQuery := "", selectedProduct := some prodA, quantity := 2,
    ticketItems := [lineA4], discountPercent := 0, paymentMethod := PaymentMethod.CASH }

/-- Ticket state holding 1 unit of `prodA` with 2 more staged. -/
def stateA1 : SaleState :=
  { searchQuery := "", selectedProduct := some prodA, quantity := 2,
    ticketItems := [lineA1], discountPercent := 0, paymentMethod := PaymentMethod.CASH }

/-- Empty ticket with 8 units of `prodB` staged (the spec's low-stock
scenario). -/
def stateB8 : SaleState :=
  { searchQuery := "", selectedProduct := some prodB, quantity := 8,
    ticketItems := [], discountPercent := 0, paymentMethod := PaymentMethod.CASH }

/-- Ticket state holding 1 unit of `prodA` (frozen at price 10) while the
staged catalog product now carries price 99. -/
def stateA99 : SaleState :=
  { searchQuery := "", selectedProduct := some prodA99, quantity := 2,
    ticketItems := [lineA1], discountPercent := 0, paymentMethod := PaymentMethod.CASH }

/-- An item of the `SaleFormDialog` cart state — the intersection type of
`CreateSaleItemDto` with a `product` snapshot field. Unlike the
quick-sale ticket there is no stored `unitPrice` or `subtotal`: the
dialog reads prices off `product.price` at render time. -/
structure SaleFormItem where
  productId : String
  quantity : Int
  product : Product
deriving DecidableEq

/-- Outcome of the dialog's index-based `handleUpdateQuantity`, reifying
its early returns: the silent `if (newQty < 1) return;` no-op, an
out-of-range row index (a TypeError in JS — the items state is never
set), the "Stock insuficiente" toast, or the in-place update. -/
inductive SaleFormUpdateOutcome where
  | ignoredBelowOne
  | indexError
  | insufficientStock (available : Int)
  | updated
deriving DecidableEq

/-- The `handleUpdateQuantity` of `SaleFormDialog` (by row index):
`if (newQty < 1) return;`, then the stock check against
`items[index].product.stock`, then `newItems[index].quantity = newQty`
on a shallow copy of the array. -/
def saleFormHandleUpdateQuantity (items : List SaleFormItem) (index : Nat)
    (newQty : Int) : List SaleFormItem × SaleFormUpdateOutcome :=
  if newQty < 1 then (items, SaleFormUpdateOutcome.ignoredBelowOne)
  else
    match items[index]? with
    | none => (items, SaleFormUpdateOutcome.indexError)
    | some item =>
      if item.product.stock < newQty then
        (items, SaleFormUpdateOutcome.insufficientStock item.product.stock)
      else
        (items.set index { item with quantity := newQty },
         SaleFormUpdateOutcome.updated)

/-- The `handleRemoveItem` of `SaleFormDialog`:
`items.filter((_, i) => i !== index)`. -/
def saleFormHandleRemoveItem (items : List SaleFormItem) (index : Nat) :
    List SaleFormItem :=
  (items.enum.filter (fun p => p.1 != index)).map Prod.snd

/-- A one-line dialog cart item holding 2 units of `prodA`. -/
def dialogItemA : SaleFormItem :=
  { productId := "A", quantity := 2, product := prodA }

/-- A keyed rewrite (`if i.productId == pid then g i else i`) mapped over a
list with no matching line leaves it unchanged. -/
theorem map_keyed_eq_self (g : TicketItem → TicketItem) (pid : String)
    (l : List TicketItem) (h : ∀ i ∈ l, i.productId ≠ pid) :
    l.map (fun i => if i.productId == pid then g i else i) = l := by
  induction l with
  | nil => rfl
  | cons a t ih =>
    have ha : (a.productId == pid) = false :=
      beq_eq_false_iff_ne.mpr (h a (by simp))
    have ht := ih (fun i hi => h i (by simp [hi]))
    rw [List.map_cons, ht]
    show (if (a.productId == pid) = true then g a else a) :: t = a :: t
    rw [ha]
    simp

/-- The `find?` on the line key misses a list with no matching line. -/
theorem find?_keyed_none (pid : String) (l : List TicketItem)
    (h : ∀ i ∈ l, i.productId ≠ pid) :
    l.find? (fun i => i.productId == pid) = none := by
  rw [List.find?_eq_none]
  intro x hx
  simp [h x hx]

/-- The `find?` on the line key returns the unique matching line of a
decomposed list. -/
theorem find?_keyed_decomp (pid : String) (pre post : List TicketItem)
    (item : TicketItem) (hitem : item.productId = pid)
    (hpre : ∀ i ∈ pre, i.productId ≠ pid) :
    (pre ++ item :: post).find? (fun i => i.productId == pid) = some item := by
  rw [List.find?_append, find?_keyed_none pid pre hpre]
  simp [hitem]

/-- The `mergeLine` rewrites exactly the matching line of a decomposed ticket,
in place, from that line's own frozen `unitPrice`. -/
theorem mergeLine_decomp (pid : String) (pre post : List TicketItem)
    (item : TicketItem) (tq : Int) (hitem : item.productId = pid)
    (hpre : ∀ i ∈ pre, i.productId ≠ pid) (hpost : ∀ i ∈ post, i.productId ≠ pid) :
    mergeLine (pre ++ item :: post) pid tq =
      pre ++ { item with quantity := tq, subtotal := item.unitPrice * (tq : Rat) } :: post := by
  unfold mergeLine
  rw [List.map_append, List.map_cons]
  rw [map_keyed_eq_self _ pid pre hpre, map_keyed_eq_self _ pid post hpost]
  simp [hitem]

/-- The `updateLine` rewrites exactly the matching line of a decomposed ticket,
in place, from that line's own frozen `unitPrice`. -/
theorem updateLine_decomp (pid : String) (pre post : List TicketItem)
    (item : TicketItem) (n : Int) (hitem : item.productId = pid)
    (hpre : ∀ i ∈ pre, i.productId ≠ pid) (hpost : ∀ i ∈ post, i.productId ≠ pid) :
    updateLine (pre ++ item :: post) pid n =
      pre ++ { item with quantity := n, subtotal := item.unitPrice * (n : Rat) } :: post := by
  unfold updateLine
  rw [List.map_append, List.map_cons]
  rw [map_keyed_eq_self _ pid pre hpre, map_keyed_eq_self _ pid post hpost]
  simp [hitem]

/-- The `filter (i.productId !== productId)` deletes exactly the matching line
of a decomposed ticket. -/
theorem filter_keyed_decomp (pid : String) (pre post : List TicketItem)
    (item : TicketItem) (hitem : item.productId = pid)
    (hpre : ∀ i ∈ pre, i.productId ≠ pid) (hpost : ∀ i ∈ post, i.productId ≠ pid) :
    (pre ++ item :: post).filter (fun i => i.productId != pid) = pre ++ post := by
  rw [List.filter_append, List.filter_cons]
  have hp : List.filter (fun i => i.productId != pid) pre = pre :=
    List.filter_eq_self.mpr (fun a ha => by simp [hpre a ha])
  have hq : List.filter (fun i => i.productId != pid) post = post :=
    List.filter_eq_self.mpr (fun a ha => by simp [hpost a ha])
  simp [hp, hq, hitem]

/-- The `mergeLine` never touches a line's frozen fields. -/
theorem frozenFields_mergeLine (l : List TicketItem) (pid : String) (tq : Int) :
    (mergeLine l pid tq).map frozenFields = l.map frozenFields := by
  unfold mergeLine
  rw [List.map_map]
  apply List.map_congr_left
  intro a _
  by_cases h : a.productId = pid <;> simp [h, frozenFields, Function.comp]

/-- The `updateLine` never touches a line's frozen fields. -/
theorem frozenFields_updateLine (l : List TicketItem) (pid : String) (n : Int) :
    (updateLine l pid n).map frozenFields = l.map frozenFields := by
  unfold updateLine
  rw [List.map_map]
  apply List.map_congr_left
  intro a _
  by_cases h : a.productId = pid <;> simp [h, frozenFields, Function.comp]

/-- The `mergeLine` preserves the multiset of product ids (it only rewrites
quantity and subtotal). -/
theorem productId_mergeLine (l : List TicketItem) (pid : String) (tq : Int) :
    (mergeLine l pid tq).map TicketItem.productId = l.map TicketItem.productId := by
  unfold mergeLine
  rw [List.map_map]
  apply List.map_congr_left
  intro a _
  by_cases h : a.productId = pid <;> simp [h, Function.comp]

/-- The `updateLine` preserves the list of product ids. -/
theorem productId_updateLine (l : List TicketItem) (pid : String) (n : Int) :
    (updateLine l pid n).map TicketItem.productId = l.map TicketItem.productId := by
  unfold updateLine
  rw [List.map_map]
  apply List.map_congr_left
  intro a _
  by_cases h : a.productId = pid <;> simp [h, Function.comp]

/-- The `mergeLine` keeps every line's `subtotal == unitPrice * quantity`
consistency: rewritten lines are consistent by construction. -/
theorem consistent_mergeLine (l : List TicketItem) (pid : String) (tq : Int)
    (h : ∀ i ∈ l, i.subtotal = i.unitPrice * (i.quantity : Rat)) :
    ∀ i ∈ mergeLine l pid tq, i.subtotal = i.unitPrice * (i.quantity : Rat) := by
  intro i hi
  unfold mergeLine at hi
  obtain ⟨a, ha, rfl⟩ := List.mem_map.mp hi
  by_cases hc : a.productId = pid
  · simp [hc]
  · simpa [hc] using h a ha

/-- The `updateLine` keeps every line's `subtotal == unitPrice * quantity`
consistency. -/
theorem consistent_updateLine (l : List TicketItem) (pid : String) (n : Int)
    (h : ∀ i ∈ l, i.subtotal = i.unitPrice * (i.quantity : Rat)) :
    ∀ i ∈ updateLine l pid n, i.subtotal = i.unitPrice * (i.quantity : Rat) := by
  intro i hi
  unfold updateLine at hi
  obtain ⟨a, ha, rfl⟩ := List.mem_map.mp hi
  by_cases hc : a.productId = pid
  · simp [hc]
  · simpa [hc] using h a ha

/-- Branch lemma: with a product staged, a positive staged quantity, and
the cumulative quantity exceeding the stock snapshot, `handleAddToTicket`
raises "Stock insuficiente" (stating the available stock and the quantity
already staged) and returns the state untouched. -/
theorem handleAddToTicket_insufficient (s : SaleState) (p : Product)
    (hsel : s.selectedProduct = some p) (hq : 0 < s.quantity)
    (hstock : p.stock <
      ((s.ticketItems.find? (fun item => item.productId == p.id)).map
        TicketItem.quantity).getD 0 + s.quantity) :
    handleAddToTicket s =
      (s, AddOutcome.insufficientStock p.stock
        (((s.ticketItems.find? (fun item => item.productId == p.id)).map
          TicketItem.quantity).getD 0)) := by
  have h1 : ¬ (s.quantity ≤ 0) := by omega
  simp only [handleAddToTicket, hsel, h1, hstock, if_false, if_true, reduceIte,
    ite_false, ite_true]

/-- Branch lemma: on any successful add (cumulative quantity within
stock), the outcome is `added` with the advisory flag valuing
`remainingStock <= minStock && remainingStock > 0`. -/
theorem handleAddToTicket_success_snd (s : SaleState) (p : Product)
    (hsel : s.selectedProduct = some p) (hq : 0 < s.quantity)
    (hstock :
      ((s.ticketItems.find? (fun item => item.productId == p.id)).map
        TicketItem.quantity).getD 0 + s.quantity ≤ p.stock) :
    (handleAddToTicket s).2 =
      AddOutcome.added
        (decide
          (p.stock -
              (((s.ticketItems.find? (fun item => item.productId == p.id)).map
                TicketItem.quantity).getD 0 + s.quantity) ≤ p.minStock ∧
            0 < p.stock -
              (((s.ticketItems.find? (fun item => item.productId == p.id)).map
                TicketItem.quantity).getD 0 + s.quantity))) := by
  have h1 : ¬ (s.quantity ≤ 0) := by omega
  have h2 : ¬ (p.stock <
      ((s.ticketItems.find? (fun item => item.productId == p.id)).map
        TicketItem.quantity).getD 0 + s.quantity) := by omega
  simp only [handleAddToTicket, hsel, h1, h2, if_false, reduceIte, ite_false]

/-- Branch lemma: a successful add that finds an existing line merges into
it in place: the line's quantity becomes the former quantity plus the
staged quantity and its subtotal is recomputed from its own frozen
`unitPrice`; all other lines, and their order, are untouched; the
selection is cleared and the staged quantity reset to 1. -/
theorem handleAddToTicket_merge (s : SaleState) (p : Product)
    (pre post : List TicketItem) (item : TicketItem)
    (hsel : s.selectedProduct = some p) (hq : 0 < s.quantity)
    (hdec : s.ticketItems = pre ++ item :: post) (hitem : item.productId = p.id)
    (hpre : ∀ i ∈ pre, i.productId ≠ p.id) (hpost : ∀ i ∈ post, i.productId ≠ p.id)
    (hstock : item.quantity + s.quantity ≤ p.stock) :
    handleAddToTicket s =
      ({ s with
          ticketItems := pre ++
            { item with
                quantity := item.quantity + s.quantity
                subtotal := item.unitPrice * ((item.quantity + s.quantity : Int) : Rat) } :: post
          selectedProduct := none
          quantity := 1 },
       AddOutcome.added
         (decide (p.stock - (item.quantity + s.quantity) ≤ p.minStock ∧
            0 < p.stock - (item.quantity + s.quantity)))) := by
  have hfind : s.ticketItems.find? (fun item => item.productId == p.id) = some item := by
    rw [hdec]
    exact find?_keyed_decomp p.id pre post item hitem hpre
  have h1 : ¬ (s.quantity ≤ 0) := by omega
  have h2 : ¬ (p.stock < item.quantity + s.quantity) := by omega
  simp only [handleAddToTicket, hsel, hfind, Option.map_some', Option.getD_some,
    h1, h2, if_false, reduceIte, ite_false]
  rw [hdec, mergeLine_decomp p.id pre post item _ hitem hpre hpost]

/-- Branch lemma: a successful add of a product with no existing line
appends a fresh line priced at the product's current catalog price. -/
theorem handleAddToTicket_new (s : SaleState) (p : Product)
    (hsel : s.selectedProduct = some p) (hq : 0 < s.quantity)
    (hnew : ∀ i ∈ s.ticketItems, i.productId ≠ p.id)
    (hstock : s.quantity ≤ p.stock) :
    handleAddToTicket s =
      ({ s with
          ticketItems := s.ticketItems ++
            [{ productId := p.id
               product := p
               quantity := s.quantity
               unitPrice := p.price
               subtotal := p.price * (s.quantity : Rat) }]
          selectedProduct := none
          quantity := 1 },
       AddOutcome.added
         (decide (p.stock - s.quantity ≤ p.minStock ∧ 0 < p.stock - s.quantity))) := by
  have hfind := find?_keyed_none p.id s.ticketItems hnew
  have h1 : ¬ (s.quantity ≤ 0) := by omega
  have h2 : ¬ (p.stock < s.quantity) := by omega
  simp only [handleAddToTicket, hsel, hfind, Option.map_none', Option.getD_none,
    h1, h2, if_false, reduceIte, ite_false, zero_add]

/-- Branch lemma: `handleUpdateQuantity` is a silent no-op when no line
matches the product id. -/
theorem handleUpdateQuantity_notFound (s : SaleState) (pid : String) (n : Int)
    (h : s.ticketItems.find? (fun i => i.productId == pid) = none) :
    handleUpdateQuantity s pid n = (s, UpdateOutcome.notFound) := by
  simp only [handleUpdateQuantity, h]

/-- Branch lemma: with a matching line and `newQuantity <= 0`,
`handleUpdateQuantity` delegates to `handleRemoveItem`. -/
theorem handleUpdateQuantity_remove (s : SaleState) (pid : String) (n : Int)
    (item : TicketItem)
    (hfind : s.ticketItems.find? (fun i => i.productId == pid) = some item)
    (hn : n ≤ 0) :
    handleUpdateQuantity s pid n = (handleRemoveItem s pid, UpdateOutcome.removed) := by
  simp only [handleUpdateQuantity, hfind, hn, if_true, ite_true, reduceIte]

/-- Branch lemma: with a matching line and a requested quantity above the
line's product stock snapshot, `handleUpdateQuantity` raises
"Stock insuficiente" and returns the state untouched. -/
theorem handleUpdateQuantity_insufficient (s : SaleState) (pid : String) (n : Int)
    (item : TicketItem)
    (hfind : s.ticketItems.find? (fun i => i.productId == pid) = some item)
    (hn : 0 < n) (hs : item.product.stock < n) :
    handleUpdateQuantity s pid n = (s, UpdateOutcome.insufficientStock item.product.stock) := by
  have h1 : ¬ (n ≤ 0) := by omega
  simp only [handleUpdateQuantity, hfind, h1, hs, if_false, if_true, reduceIte,
    ite_false, ite_true]

/-- Branch lemma: with a matching line and an in-range quantity,
`handleUpdateQuantity` rewrites the ticket through `updateLine`. -/
theorem handleUpdateQuantity_update (s : SaleState) (pid : String) (n : Int)
    (item : TicketItem)
    (hfind : s.ticketItems.find? (fun i => i.productId == pid) = some item)
    (hn : 0 < n) (hs : n ≤ item.product.stock) :
    handleUpdateQuantity s pid n =
      ({ s with ticketItems := updateLine s.ticketItems pid n }, UpdateOutcome.updated) := by
  have h1 : ¬ (n ≤ 0) := by omega
  have h2 : ¬ (item.product.stock < n) := by omega
  simp only [handleUpdateQuantity, hfind, h1, h2, if_false, reduceIte, ite_false]

/-- Branch lemma: the empty-ticket guard of `handleConfirmSale`. -/
theorem handleConfirmSale_empty (s : SaleState) (h : s.ticketItems = []) :
    handleConfirmSale s = ConfirmAction.emptyTicket := by
  simp [handleConfirmSale, h]

/-- Branch lemma: on a non-empty ticket `handleConfirmSale` submits the
order payload it builds. -/
theorem handleConfirmSale_submit (s : SaleState) (h : s.ticketItems ≠ []) :
    handleConfirmSale s =
      ConfirmAction.submit
        { items := s.ticketItems.map (fun item =>
            { productId := item.productId, quantity := item.quantity })
          paymentMethod := s.paymentMethod
          discountPercent := if 0 < s.discountPercent then some s.discountPercent else none
          customerId := none } := by
  have h0 : ¬ (s.ticketItems.length = 0) := by
    simpa [List.length_eq_zero] using h
  simp only [handleConfirmSale, h0, if_false, reduceIte, ite_false]

/-- Branch lemma: a confirm attempt on an empty ticket reports the
empty-ticket error without reaching the mutation, for either backend
verdict. -/
theorem confirmSaleStep_empty (s : SaleState) (b : Bool) (h : s.ticketItems = []) :
    confirmSaleStep s b = (s, ConfirmResult.emptyTicketError) := by
  simp only [confirmSaleStep, handleConfirmSale_empty s h]

/-- Branch lemma: a successful confirm clears the ticket and reports the
submitted payload. -/
theorem confirmSaleStep_success (s : SaleState) (h : s.ticketItems ≠ []) :
    confirmSaleStep s true =
      (handleClearTicket s,
       ConfirmResult.success
         { items := s.ticketItems.map (fun item =>
             { productId := item.productId, quantity := item.quantity })
           paymentMethod := s.paymentMethod
           discountPercent := if 0 < s.discountPercent then some s.discountPercent else none
           customerId := none }) := by
  simp only [confirmSaleStep, handleConfirmSale_submit s h, if_true, ite_true, reduceIte]

/-- Branch lemma: a failed confirm leaves the state untouched and reports
the payload whose submission failed. -/
theorem confirmSaleStep_failure (s : SaleState) (h : s.ticketItems ≠ []) :
    confirmSaleStep s false =
      (s,
       ConfirmResult.failure
         { items := s.ticketItems.map (fun item =>
             { productId := item.productId, quantity := item.quantity })
           paymentMethod := s.paymentMethod
           discountPercent := if 0 < s.discountPercent then some s.discountPercent else none
           customerId := none }) := by
  simp only [confirmSaleStep, handleConfirmSale_submit s h, if_false, ite_false,
    Bool.false_eq_true, reduceIte]

/-- Structural case split on the state returned by `handleAddToTicket`:
either the state is untouched (any of the three early returns), or the
add succeeded and the ticket was rewritten by the merge branch or by the
append branch. -/
theorem handleAddToTicket_fst_cases (s : SaleState) :
    (handleAddToTicket s).1 = s ∨
    ∃ p tq,
      s.selectedProduct = some p ∧ 0 < s.quantity ∧
      ((handleAddToTicket s).1 =
          { s with
              ticketItems := mergeLine s.ticketItems p.id tq,
              selectedProduct := none,
              quantity := 1 } ∨
        ((handleAddToTicket s).1 =
            { s with
                ticketItems := s.ticketItems ++
                  [{ productId := p.id
                     product := p
                     quantity := s.quantity
                     unitPrice := p.price
                     subtotal := p.price * (s.quantity : Rat) }],
                selectedProduct := none,
                quantity := 1 } ∧
          s.ticketItems.find? (fun item => item.productId == p.id) = none)) := by
  cases hsel : s.selectedProduct with
  | none => left; simp [handleAddToTicket, hsel]
  | some p =>
    by_cases h1 : s.quantity ≤ 0
    · left; simp [handleAddToTicket, hsel, h1]
    · cases hfind : s.ticketItems.find? (fun item => item.productId == p.id) with
      | none =>
        by_cases h2 : p.stock < s.quantity
        · left; simp [handleAddToTicket, hsel, h1, hfind, h2]
        · right
          refine ⟨p, s.quantity, rfl, by omega, Or.inr ⟨?_, hfind⟩⟩
          simp [handleAddToTicket, hsel, h1, hfind, h2]
      | some item =>
        by_cases h2 : p.stock < item.quantity + s.quantity
        · left; simp [handleAddToTicket, hsel, h1, hfind, h2]
        · right
          refine ⟨p, item.quantity + s.quantity, rfl, by omega, Or.inl ?_⟩
          simp [handleAddToTicket, hsel, h1, hfind, h2]

/-- Structural case split on the state returned by `handleUpdateQuantity`:
untouched, a removal, or an in-place rewrite. -/
theorem handleUpdateQuantity_fst_cases (s : SaleState) (pid : String) (n : Int) :
    (handleUpdateQuantity s pid n).1 = s ∨
    (handleUpdateQuantity s pid n).1 = handleRemoveItem s pid ∨
    (handleUpdateQuantity s pid n).1 =
      { s with ticketItems := updateLine s.ticketItems pid n } := by
  cases hfind : s.ticketItems.find? (fun i => i.productId == pid) with
  | none => left; simp [handleUpdateQuantity, hfind]
  | some item =>
    by_cases h1 : n ≤ 0
    · right; left; simp [handleUpdateQuantity, hfind, h1]
    · by_cases h2 : item.product.stock < n
      · left; simp [handleUpdateQuantity, hfind, h1, h2]
      · right; right; simp [handleUpdateQuantity, hfind, h1, h2]

/-- Structural case split on the state after a confirm attempt: untouched
or fully cleared. -/
theorem confirmSaleStep_fst_cases (s : SaleState) (b : Bool) :
    (confirmSaleStep s b).1 = s ∨ (confirmSaleStep s b).1 = handleClearTicket s := by
  unfold confirmSaleStep
  cases handleConfirmSale s with
  | emptyTicket => left; rfl
  | submit d =>
    cases b
    · left; simp
    · right; simp

/-- The freshly mounted view satisfies the invariant. -/
theorem invariant_initial : TicketInvariant initialState := by
  refine ⟨?_, ?_, ?_, ?_⟩ <;> norm_num [initialState]

/-- The `handleRemoveItem` preserves the invariant (filtering is a sublist). -/
theorem invariant_remove (s : SaleState) (pid : String) (h : TicketInvariant s) :
    TicketInvariant (handleRemoveItem s pid) := by
  obtain ⟨hcons, hnodup, hd0, hd1⟩ := h
  refine ⟨?_, ?_, hd0, hd1⟩
  · intro i hi
    exact hcons i (List.mem_of_mem_filter hi)
  · exact hnodup.sublist (List.Sublist.map _ (List.filter_sublist _))

/-- The `handleClearTicket` re-establishes the invariant from scratch. -/
theorem invariant_clear (s : SaleState) : TicketInvariant (handleClearTicket s) := by
  refine ⟨?_, ?_, ?_, ?_⟩ <;> norm_num [handleClearTicket]

/-- Every single user action preserves the ticket-state invariant. -/
theorem invariant_step (s : SaleState) (a : Action) (h : TicketInvariant s) :
    TicketInvariant (step s a) := by
  obtain ⟨hcons, hnodup, hd0, hd1⟩ := h
  cases a with
  | selectProduct p => exact ⟨hcons, hnodup, hd0, hd1⟩
  | setQuantity raw => exact ⟨hcons, hnodup, hd0, hd1⟩
  | setPayment m => exact ⟨hcons, hnodup, hd0, hd1⟩
  | setDiscount raw =>
    exact ⟨hcons, hnodup, le_min (by norm_num) (le_max_left 0 raw), min_le_left _ _⟩
  | clearTicket => exact invariant_clear s
  | removeItem pid => exact invariant_remove s pid ⟨hcons, hnodup, hd0, hd1⟩
  | addToTicket =>
    show TicketInvariant (handleAddToTicket s).1
    rcases handleAddToTicket_fst_cases s with hc | ⟨p, tq, _, _, hc | ⟨hc, hfind⟩⟩
    · rw [hc]; exact ⟨hcons, hnodup, hd0, hd1⟩
    · rw [hc]
      refine ⟨consistent_mergeLine _ _ _ hcons, ?_, hd0, hd1⟩
      show ((mergeLine s.ticketItems p.id tq).map TicketItem.productId).Nodup
      rw [productId_mergeLine]
      exact hnodup
    · rw [hc]
      have hnot : ∀ i ∈ s.ticketItems, i.productId ≠ p.id := by
        intro i hi
        have := List.find?_eq_none.mp hfind i hi
        simpa using this
      refine ⟨?_, ?_, hd0, hd1⟩
      · intro i hi
        rcases List.mem_append.mp hi with hold | hnewm
        · exact hcons i hold
        · rcases List.mem_singleton.mp hnewm with rfl
          rfl
      · show ((s.ticketItems ++ [_]).map TicketItem.productId).Nodup
        rw [List.map_append]
        refine List.nodup_append.mpr ⟨hnodup, List.nodup_singleton _, ?_⟩
        intro x hx hx1
        rcases List.mem_map.mp hx with ⟨i, hi, rfl⟩
        have hxx : i.productId = p.id := by simpa using hx1
        exact hnot i hi hxx
  | updateQuantity pid n =>
    show TicketInvariant (handleUpdateQuantity s pid n).1
    rcases handleUpdateQuantity_fst_cases s pid n with hc | hc | hc
    · rw [hc]; exact ⟨hcons, hnodup, hd0, hd1⟩
    · rw [hc]; exact invariant_remove s pid ⟨hcons, hnodup, hd0, hd1⟩
    · rw [hc]
      refine ⟨consistent_updateLine _ _ _ hcons, ?_, hd0, hd1⟩
      show ((updateLine s.ticketItems pid n).map TicketItem.productId).Nodup
      rw [productId_updateLine]
      exact hnodup
  | confirmSale ok =>
    show TicketInvariant (confirmSaleStep s ok).1
    rcases confirmSaleStep_fst_cases s ok with hc | hc
    · rw [hc]; exact ⟨hcons, hnodup, hd0, hd1⟩
    · rw [hc]; exact invariant_clear s

/-- Every state reachable from the fresh view satisfies the invariant. -/
theorem invariant_run (acts : List Action) : TicketInvariant (run acts) := by
  suffices h : ∀ (l : List Action) (s : SaleState),
      TicketInvariant s → TicketInvariant (l.foldl step s) from
    h acts initialState invariant_initial
  intro l
  induction l with
  | nil => intro s hs; exact hs
  | cons a t ih => intro s hs; exact ih _ (invariant_step s a hs)

/-- The `reduce((sum, item) => sum + item.subtotal, a)` is `a` plus the sum of
the line subtotals. -/
theorem foldl_add_subtotal (l : List TicketItem) (a : Rat) :
    l.foldl (fun sum item => sum + item.subtotal) a =
      a + (l.map TicketItem.subtotal).sum := by
  induction l generalizing a with
  | nil => simp
  | cons x t ih => simp [ih, add_assoc]

/-- C1: for every ticket state with a staged product and a staged quantity
(at least 1, as the quantity input enforces), if the quantity already in
the ticket for that product plus the staged quantity exceeds the product's
stock snapshot then `addToTicket` fails with the insufficient-stock error
(stating the units available and the units already staged) and the whole
state — in particular every line, quantity and subtotal — is returned
unchanged; otherwise the operation succeeds. -/
theorem addToTicket_insufficientStock_guard (s : SaleState) (p : Product)
    (hsel : s.selectedProduct = some p) (hq : 1 ≤ s.quantity) :
    (p.stock <
        ((s.ticketItems.find? (fun item => item.productId == p.id)).map
          TicketItem.quantity).getD 0 + s.quantity →
      handleAddToTicket s =
        (s, AddOutcome.insufficientStock p.stock
          (((s.ticketItems.find? (fun item => item.productId == p.id)).map
            TicketItem.quantity).getD 0))) ∧
    (((s.ticketItems.find? (fun item => item.productId == p.id)).map
        TicketItem.quantity).getD 0 + s.quantity ≤ p.stock →
      ∃ w, (handleAddToTicket s).2 = AddOutcome.added w) := by
  constructor
  · intro h
    exact handleAddToTicket_insufficient s p hsel (by omega) h
  · intro h
    exact ⟨_, handleAddToTicket_success_snd s p hsel (by omega) h⟩

/-- C1 witness: 4 units of product "A" (stock 5) staged in the ticket plus
2 more requested exceed the stock, so the add fails with
`insufficientStock 5 4` and the state is untouched. -/
theorem addToTicket_insufficientStock_guard_witness :
    handleAddToTicket stateA4 = (stateA4, AddOutcome.insufficientStock 5 4) :=
  ((addToTicket_insufficientStock_guard stateA4 prodA rfl (by decide)).1
    (by decide)).trans (by decide)

/-- C2: a product id appears in at most one line. (a) Along every action
sequence from the fresh view the ticket's product ids are pairwise
distinct; (b) a successful add of a product with an existing line merges
into that line in place — its quantity becomes the sum of both additions
and its subtotal grows accordingly — producing no new line; (c) a
successful add of a product without a line appends exactly one new
line. -/
theorem ticket_lines_unique_and_merge :
    (∀ acts : List Action, ((run acts).ticketItems.map TicketItem.productId).Nodup) ∧
    (∀ (s : SaleState) (p : Product) (pre post : List TicketItem) (item : TicketItem),
      s.selectedProduct = some p → 0 < s.quantity →
      s.ticketItems = pre ++ item :: post → item.productId = p.id →
      (∀ i ∈ pre, i.productId ≠ p.id) → (∀ i ∈ post, i.productId ≠ p.id) →
      item.quantity + s.quantity ≤ p.stock →
      (handleAddToTicket s).1.ticketItems =
        pre ++ { item with
            quantity := item.quantity + s.quantity
            subtotal := item.unitPrice * ((item.quantity + s.quantity : Int) : Rat) } :: post) ∧
    (∀ (s : SaleState) (p : Product),
      s.selectedProduct = some p → 0 < s.quantity →
      (∀ i ∈ s.ticketItems, i.productId ≠ p.id) → s.quantity ≤ p.stock →
      (handleAddToTicket s).1.ticketItems =
        s.ticketItems ++
          [{ productId := p.id
             product := p
             quantity := s.quantity
             unitPrice := p.price
             subtotal := p.price * (s.quantity : Rat) }]) := by
  refine ⟨?_, ?_, ?_⟩
  · intro acts
    exact (invariant_run acts).2.1
  · intro s p pre post item hsel hq hdec hpid hpre hpost hstock
    rw [handleAddToTicket_merge s p pre post item hsel hq hdec hpid hpre hpost hstock]
  · intro s p hsel hq hnew hstock
    rw [handleAddToTicket_new s p hsel hq hnew hstock]

/-- C2 witness: adding 2 more units of product "A" to a ticket already
holding 1 unit merges into the single existing line, which ends at
quantity 3 and subtotal 30. -/
theorem ticket_lines_unique_and_merge_witness :
    (handleAddToTicket stateA1).1.ticketItems =
      [{ productId := "A", product := prodA, quantity := 3, unitPrice := 10,
         subtotal := 30 }] :=
  (ticket_lines_unique_and_merge.2.1 stateA1 prodA [] [] lineA1 rfl (by decide)
    rfl rfl (by simp) (by simp) (by decide)).trans (by norm_num [lineA1, stateA1])

/-- C3: in every reachable ticket state the derived totals satisfy
`subtotal == Σ (line.unitPrice * line.quantity)`,
`discountAmount == subtotal * discountPercent / 100`,
`total == subtotal - discountAmount`, with
`discountPercent ∈ [0, 100]`. -/
theorem totals_identities (acts : List Action) :
    subtotal (run acts) =
      ((run acts).ticketItems.map (fun i => i.unitPrice * (i.quantity : Rat))).sum ∧
    discountAmount (run acts) = subtotal (run acts) * (run acts).discountPercent / 100 ∧
    total (run acts) = subtotal (run acts) - discountAmount (run acts) ∧
    0 ≤ (run acts).discountPercent ∧ (run acts).discountPercent ≤ 100 := by
  obtain ⟨hcons, _, hd0, hd1⟩ := invariant_run acts
  refine ⟨?_, rfl, rfl, hd0, hd1⟩
  unfold subtotal
  rw [foldl_add_subtotal, zero_add]
  exact congrArg List.sum (List.map_congr_left (fun i hi => hcons i hi))

/-- C4 counterexample: in the sale form dialog, `updateQuantity(0, 0)` on
a one-line cart is a silent no-op — `if (newQty < 1) return;` — so the
line is NOT deleted, while the dialog's own `removeLine(0)` does delete
it. The claimed `newQuantity <= 0` ⇒ `removeLine` equivalence therefore
fails on this cited implementation at this concrete input. -/
theorem saleFormUpdateQuantity_zero_counterexample :
    saleFormHandleUpdateQuantity [dialogItemA] 0 0 =
      ([dialogItemA], SaleFormUpdateOutcome.ignoredBelowOne) ∧
    saleFormHandleRemoveItem [dialogItemA] 0 = [] ∧
    ([dialogItemA] : List SaleFormItem) ≠ [] := by
  refine ⟨?_, ?_, ?_⟩ <;> decide

/-- C4 (amended): in the quick-sale view, for a ticket containing a line
for `productId`, taking the operation's cases in order: `newQuantity <= 0`
is exactly `removeLine(productId)` (the line is deleted, all other lines
kept); otherwise a quantity above the line's product stock snapshot fails
with the insufficient-stock error and leaves the whole state unchanged;
otherwise the line's quantity becomes `newQuantity` and its subtotal is
recomputed as its frozen `unitPrice * newQuantity`, in place. In the sale
form dialog's index-based handler, a quantity below 1 is instead a silent
no-op that leaves the item list unchanged (no removal happens there); its
above-stock branch fails leaving the list unchanged, and its in-range
branch updates the row's quantity in place. -/
theorem updateQuantity_semantics :
    (∀ (s : SaleState) (pid : String) (pre post : List TicketItem)
        (item : TicketItem) (n : Int),
      s.ticketItems = pre ++ item :: post → item.productId = pid →
      (∀ i ∈ pre, i.productId ≠ pid) → (∀ i ∈ post, i.productId ≠ pid) →
      ((n ≤ 0 →
        handleUpdateQuantity s pid n =
          (handleRemoveItem s pid, UpdateOutcome.removed) ∧
        (handleRemoveItem s pid).ticketItems = pre ++ post) ∧
      (0 < n → item.product.stock < n →
        handleUpdateQuantity s pid n =
          (s, UpdateOutcome.insufficientStock item.product.stock)) ∧
      (0 < n → n ≤ item.product.stock →
        handleUpdateQuantity s pid n =
          ({ s with ticketItems :=
              pre ++ { item with
                  quantity := n
                  subtotal := item.unitPrice * (n : Rat) } :: post },
           UpdateOutcome.updated)))) ∧
    (∀ (items : List SaleFormItem) (index : Nat) (newQty : Int),
      newQty < 1 →
      saleFormHandleUpdateQuantity items index newQty =
        (items, SaleFormUpdateOutcome.ignoredBelowOne)) ∧
    (∀ (items : List SaleFormItem) (index : Nat) (item : SaleFormItem) (newQty : Int),
      items[index]? = some item → 1 ≤ newQty → item.product.stock < newQty →
      saleFormHandleUpdateQuantity items index newQty =
        (items, SaleFormUpdateOutcome.insufficientStock item.product.stock)) ∧
    (∀ (items : List SaleFormItem) (index : Nat) (item : SaleFormItem) (newQty : Int),
      items[index]? = some item → 1 ≤ newQty → newQty ≤ item.product.stock →
      saleFormHandleUpdateQuantity items index newQty =
        (items.set index { item with quantity := newQty },
         SaleFormUpdateOutcome.updated)) := by
  refine ⟨?_, ?_, ?_, ?_⟩
  · intro s pid pre post item n hdec hpid hpre hpost
    have hfind : s.ticketItems.find? (fun i => i.productId == pid) = some item := by
      rw [hdec]
      exact find?_keyed_decomp pid pre post item hpid hpre
    refine ⟨?_, ?_, ?_⟩
    · intro hn
      refine ⟨handleUpdateQuantity_remove s pid n item hfind hn, ?_⟩
      show s.ticketItems.filter (fun i => i.productId != pid) = pre ++ post
      rw [hdec]
      exact filter_keyed_decomp pid pre post item hpid hpre hpost
    · intro hn hs
      exact handleUpdateQuantity_insufficient s pid n item hfind hn hs
    · intro hn hs
      rw [handleUpdateQuantity_update s pid n item hfind hn hs]
      rw [show updateLine s.ticketItems pid n =
          pre ++ { item with quantity := n, subtotal := item.unitPrice * (n : Rat) } :: post
        from by rw [hdec]; exact updateLine_decomp pid pre post item n hpid hpre hpost]
  · intro items index newQty h
    simp only [saleFormHandleUpdateQuantity, h, if_true, ite_true, reduceIte]
  · intro items index item newQty hget h1 h2
    have hn : ¬ (newQty < 1) := by omega
    simp only [saleFormHandleUpdateQuantity, hn, hget, h2, if_false, if_true,
      reduceIte, ite_false, ite_true]
  · intro items index item newQty hget h1 h2
    have hn : ¬ (newQty < 1) := by omega
    have h3 : ¬ (item.product.stock < newQty) := by omega
    simp only [saleFormHandleUpdateQuantity, hn, hget, h3, if_false, reduceIte,
      ite_false]

/-- C4 witness: on the one-line quick-sale ticket holding 1 unit of
product "A" (stock 5), `updateQuantity("A", 3)` rewrites the line in
place to quantity 3 and subtotal 30; on the one-line dialog cart,
`updateQuantity(0, 3)` updates the row's quantity to 3 in place. -/
theorem updateQuantity_semantics_witness :
    handleUpdateQuantity stateA1 "A" 3 =
      ({ stateA1 with ticketItems :=
          [{ productId := "A", product := prodA, quantity := 3, unitPrice := 10,
             subtotal := 30 }] },
       UpdateOutcome.updated) ∧
    saleFormHandleUpdateQuantity [dialogItemA] 0 3 =
      ([{ productId := "A", quantity := 3, product := prodA }],
       SaleFormUpdateOutcome.updated) :=
  ⟨((updateQuantity_semantics.1 stateA1 "A" [] [] lineA1 3 rfl rfl (by simp)
      (by simp)).2.2 (by decide) (by decide)).trans (by norm_num [lineA1, stateA1]),
   (updateQuantity_semantics.2.2.2 [dialogItemA] 0 dialogItemA 3 (by decide)
      (by decide) (by decide)).trans (by decide)⟩

/-- C5: confirming a non-empty ticket has exactly two outcomes. On backend
success the whole ticket state is reset to its initial values (no lines,
zero discount, CASH payment, no selection, staged quantity 1) and a
success result carrying the submitted payload is signalled; on backend
failure the state — lines, quantities, discount, payment method — is
preserved completely unchanged for a retry. -/
theorem confirm_success_resets_failure_preserves (s : SaleState)
    (h : s.ticketItems ≠ []) :
    ((confirmSaleStep s true).1.ticketItems = [] ∧
     (confirmSaleStep s true).1.discountPercent = 0 ∧
     (confirmSaleStep s true).1.paymentMethod = PaymentMethod.CASH ∧
     (confirmSaleStep s true).1.selectedProduct = none ∧
     (confirmSaleStep s true).1.quantity = 1 ∧
     (∃ d, (confirmSaleStep s true).2 = ConfirmResult.success d)) ∧
    ((confirmSaleStep s false).1 = s ∧
     (∃ d, (confirmSaleStep s false).2 = ConfirmResult.failure d)) := by
  constructor
  · rw [confirmSaleStep_success s h]
    exact ⟨rfl, rfl, rfl, rfl, rfl, ⟨_, rfl⟩⟩
  · rw [confirmSaleStep_failure s h]
    exact ⟨rfl, ⟨_, rfl⟩⟩

/-- C5 witness: confirming the one-line ticket succeeds into the cleared
state and fails into the identical state. -/
theorem confirm_success_resets_failure_preserves_witness :
    (confirmSaleStep stateA1 true).1.ticketItems = [] ∧
    (confirmSaleStep stateA1 true).1.discountPercent = 0 ∧
    (confirmSaleStep stateA1 true).1.paymentMethod = PaymentMethod.CASH ∧
    (confirmSaleStep stateA1 false).1 = stateA1 :=
  ⟨(confirm_success_resets_failure_preserves stateA1 (by decide)).1.1,
   (confirm_success_resets_failure_preserves stateA1 (by decide)).1.2.1,
   (confirm_success_resets_failure_preserves stateA1 (by decide)).1.2.2.1,
   (confirm_success_resets_failure_preserves stateA1 (by decide)).2.1⟩

/-- C6: confirming a ticket with zero lines fails with the empty-ticket
error and never reaches `createSaleMutation.mutate` (the decision is
`emptyTicket`, the branch that returns before the only network-call
site), leaving the state unchanged whatever the backend would have
answered. -/
theorem confirm_empty_ticket_no_call (s : SaleState) (h : s.ticketItems = []) :
    handleConfirmSale s = ConfirmAction.emptyTicket ∧
    ∀ b, confirmSaleStep s b = (s, ConfirmResult.emptyTicketError) :=
  ⟨handleConfirmSale_empty s h, fun b => confirmSaleStep_empty s b h⟩

/-- C6 witness: the fresh empty ticket. -/
theorem confirm_empty_ticket_no_call_witness :
    handleConfirmSale initialState = ConfirmAction.emptyTicket ∧
    confirmSaleStep initialState true = (initialState, ConfirmResult.emptyTicketError) ∧
    confirmSaleStep initialState false = (initialState, ConfirmResult.emptyTicketError) :=
  ⟨(confirm_empty_ticket_no_call initialState rfl).1,
   (confirm_empty_ticket_no_call initialState rfl).2 true,
   (confirm_empty_ticket_no_call initialState rfl).2 false⟩

/-- C7: the payload a non-empty confirm submits is exactly the ticket's
`(productId, quantity)` pairs in ticket order — `CreateSaleItemDto`
carries no price fields — with the payment method always present, the
discount present exactly when positive (omitted at zero), and a null
customer id. -/
theorem confirm_payload_shape (s : SaleState) (h : s.ticketItems ≠ []) :
    handleConfirmSale s =
      ConfirmAction.submit
        { items := s.ticketItems.map (fun item =>
            { productId := item.productId, quantity := item.quantity })
          paymentMethod := s.paymentMethod
          discountPercent := if 0 < s.discountPercent then some s.discountPercent else none
          customerId := none } ∧
    (0 < s.discountPercent →
      (if 0 < s.discountPercent then some s.discountPercent else none) =
        some s.discountPercent) ∧
    (s.discountPercent ≤ 0 →
      (if 0 < s.discountPercent then some s.discountPercent else none) =
        (none : Option Rat)) := by
  refine ⟨handleConfirmSale_submit s h, ?_, ?_⟩
  · intro hd
    rw [if_pos hd]
  · intro hd
    rw [if_neg (not_lt.mpr hd)]

/-- C7 witness: confirming the one-line ticket (discount 0) submits the
single `(productId "A", quantity 1)` pair, CASH, no discount field, null
customer. -/
theorem confirm_payload_shape_witness :
    handleConfirmSale stateA1 =
      ConfirmAction.submit
        { items := [{ productId := "A", quantity := 1 }]
          paymentMethod := PaymentMethod.CASH
          discountPercent := none
          customerId := none } :=
  ((confirm_payload_shape stateA1 (by decide)).1).trans (by decide)

/-- Helper: a failed confirm never mutates the state, whatever the ticket
holds (non-empty: the `onError` callback only toasts; empty: the guard
returns early). -/
theorem confirmSaleStep_false_fst (st : SaleState) :
    (confirmSaleStep st false).1 = st := by
  unfold confirmSaleStep
  cases handleConfirmSale st <;> simp

/-- C8: on every successful add (total requested within stock), the
low-stock advisory fires exactly when the remaining stock
`p.stock - totalRequested` lies in the half-open interval
`(0, p.minStock]` — in particular remaining stock 0 fires no advisory —
and the outcome is `added` either way: the advisory never blocks the
operation. -/
theorem low_stock_advisory_iff (s : SaleState) (p : Product)
    (hsel : s.selectedProduct = some p) (hq : 0 < s.quantity)
    (hstock : ((s.ticketItems.find? (fun item => item.productId == p.id)).map
        TicketItem.quantity).getD 0 + s.quantity ≤ p.stock) :
    ∃ w, (handleAddToTicket s).2 = AddOutcome.added w ∧
      (w = true ↔
        (0 < p.stock -
            (((s.ticketItems.find? (fun item => item.productId == p.id)).map
              TicketItem.quantity).getD 0 + s.quantity) ∧
          p.stock -
            (((s.ticketItems.find? (fun item => item.productId == p.id)).map
              TicketItem.quantity).getD 0 + s.quantity) ≤ p.minStock)) := by
  refine ⟨_, handleAddToTicket_success_snd s p hsel hq hstock, ?_⟩
  simp only [decide_eq_true_eq]
  exact and_comm

/-- C8 witness: the spec scenario — stock 10, minStock 3, add 8 to an
empty ticket: the add succeeds and the advisory fires (remaining 2). -/
theorem low_stock_advisory_iff_witness :
    (handleAddToTicket stateB8).2 = AddOutcome.added true := by
  obtain ⟨w, hw, hiff⟩ := low_stock_advisory_iff stateB8 prodB rfl (by decide) (by decide)
  rw [hw, hiff.mpr (by decide)]

/-- C9 counterexample: a backend error body whose `message` field is the
single string `""` is not surfaced verbatim — `error.message || "Error
desconocido"` replaces the falsy empty string with the default text. -/
theorem surfacedMessage_empty_string_counterexample :
    surfacedMessage (ErrorMessageField.ofString "") = "Error desconocido" ∧
    surfacedMessage (ErrorMessageField.ofString "") ≠ "" := by
  constructor <;> decide

/-- C9 (amended): a single string `message` is surfaced verbatim whenever
it is non-empty (the falsy empty string falls back to the default text);
an array `message` is always surfaced as its elements joined with `", "`;
in particular the two validation strings of the scenario surface as their
comma-joined concatenation; and a failed confirm leaves the ticket lines
unchanged. -/
theorem surfacedMessage_amended :
    (∀ m : String, m ≠ "" → surfacedMessage (ErrorMessageField.ofString m) = m) ∧
    (∀ xs : List String,
      surfacedMessage (ErrorMessageField.ofArray xs) = String.intercalate ", " xs) ∧
    surfacedMessage
        (ErrorMessageField.ofArray
          ["items should not be empty",
           "paymentMethod must be one of CASH, CARD, TRANSFER"]) =
      "items should not be empty, paymentMethod must be one of CASH, CARD, TRANSFER" ∧
    (∀ st : SaleState, (confirmSaleStep st false).1.ticketItems = st.ticketItems) := by
  refine ⟨?_, fun xs => rfl, by decide, fun st => ?_⟩
  · intro m hm
    simp [surfacedMessage, hm]
  · rw [confirmSaleStep_false_fst st]

/-- C9 witness: the connection-failure fallback string is non-empty and is
surfaced verbatim. -/
theorem surfacedMessage_amended_witness :
    surfacedMessage (ErrorMessageField.ofString "Error de conexión") =
      "Error de conexión" :=
  surfacedMessage_amended.1 "Error de conexión" (by decide)

/-- C10: a line's `productId`, `product` snapshot and `unitPrice` are
frozen at creation. (a) Any add maps the old lines' frozen fields
unchanged onto a prefix of the result (failures and merges change no
frozen field, an append only adds one line after them); (b) an update
with a positive quantity changes no frozen field of any line; (c) a
merging add rewrites only quantity and subtotal, and the new subtotal is
computed from the line's original frozen `unitPrice` — the staged catalog
product's current `price` does not appear, even when it differs. -/
theorem frozen_line_fields :
    (∀ s : SaleState, ∃ rest,
      (handleAddToTicket s).1.ticketItems.map frozenFields =
        s.ticketItems.map frozenFields ++ rest) ∧
    (∀ (s : SaleState) (pid : String) (n : Int), 0 < n →
      (handleUpdateQuantity s pid n).1.ticketItems.map frozenFields =
        s.ticketItems.map frozenFields) ∧
    (∀ (s : SaleState) (p : Product) (pre post : List TicketItem) (item : TicketItem),
      s.selectedProduct = some p → 0 < s.quantity →
      s.ticketItems = pre ++ item :: post → item.productId = p.id →
      (∀ i ∈ pre, i.productId ≠ p.id) → (∀ i ∈ post, i.productId ≠ p.id) →
      item.quantity + s.quantity ≤ p.stock →
      (handleAddToTicket s).1.ticketItems =
        pre ++
          { productId := item.productId
            product := item.product
            quantity := item.quantity + s.quantity
            unitPrice := item.unitPrice
            subtotal := item.unitPrice * ((item.quantity + s.quantity : Int) : Rat) } ::
          post) := by
  refine ⟨?_, ?_, ?_⟩
  · intro s
    rcases handleAddToTicket_fst_cases s with hc | ⟨p, tq, _, _, hc | ⟨hc, _⟩⟩
    · exact ⟨[], by rw [hc]; simp⟩
    · refine ⟨[], ?_⟩
      rw [hc]
      show (mergeLine s.ticketItems p.id tq).map frozenFields =
        s.ticketItems.map frozenFields ++ []
      rw [frozenFields_mergeLine]
      simp
    · refine ⟨[frozenFields
        { productId := p.id
          product := p
          quantity := s.quantity
          unitPrice := p.price
          subtotal := p.price * (s.quantity : Rat) }], ?_⟩
      rw [hc]
      simp [List.map_append]
  · intro s pid n hn
    cases hfind : s.ticketItems.find? (fun i => i.productId == pid) with
    | none => rw [handleUpdateQuantity_notFound s pid n hfind]
    | some item =>
      by_cases h2 : item.product.stock < n
      · rw [handleUpdateQuantity_insufficient s pid n item hfind hn h2]
      · rw [handleUpdateQuantity_update s pid n item hfind hn (by omega)]
        exact frozenFields_updateLine s.ticketItems pid n
  · intro s p pre post item hsel hq hdec hpid hpre hpost hstock
    rw [handleAddToTicket_merge s p pre post item hsel hq hdec hpid hpre hpost hstock]

/-- C10 witness: product "A" is staged anew at catalog price 99 while the
existing line froze `unitPrice` 10; the merge leaves productId, product
snapshot and unitPrice untouched and computes the new subtotal as
`10 * 3 = 30` — the new catalog price 99 is ignored. -/
theorem frozen_line_fields_witness :
    (handleAddToTicket stateA99).1.ticketItems =
      [{ productId := "A", product := prodA, quantity := 3, unitPrice := 10,
         subtotal := 30 }] :=
  (frozen_line_fields.2.2 stateA99 prodA99 [] [] lineA1 rfl (by decide) rfl rfl
    (by simp) (by simp) (by decide)).trans (by norm_num [lineA1, stateA99])

end InventoryJoy
